import Mathlib

/-!
# Verification of the PlayMatch rating / matchmaking core

Shallow embedding of the rating engine (`server/utils/elo.js`), the
matchmaking candidate query and the match-result processing
(`server/routes/matches.js`) of the PlayMatch sports-matchmaking
application, together with proofs of the specification's claims about
them.

Modelling conventions:
* JavaScript numbers on the normal (non-NaN) path are modelled as real
  numbers; `Math.round` is `⌊x + 1/2⌋` (round half toward positive
  infinity), which is JS semantics up to float precision.
* A second model (`JsElo`) carries an explicit NaN value with IEEE-style
  NaN propagation, used to settle the claim about corrupted (NaN) stored
  ratings.
* SQL rows are Lean structures, tables are lists of rows, and the
  spec-described meaning of the candidate query is relational: joins are
  list products, `WHERE` is `filter`, `DISTINCT` is `dedup`, `ORDER BY`
  is `mergeSort`, `LIMIT 10` is `take 10`.  The PostGIS distance
  `ST_Distance` is an abstract parameter `dist` (a function of the two
  stored coordinate pairs); ratings and distances stored in the database
  are modelled as rationals so that the query is executable.
* The candidate statement the source *builds* is not that query: its
  `SELECT` list splices JavaScript source text (matches.js line 665),
  it binds seven parameter values for placeholders `$1..$6`, its rating
  filter reads `$5`/`$6` (off by one against the bound values), and its
  `ORDER BY CASE` compares ratings with `$4`, the requester's latitude.
  PostgreSQL rejects the statement, the `catch` returns `[]`, and the
  function never returns a candidate.  `Matchmaking.findMatchCandidatesExec`
  models that actual execution, with the bind list and placeholder
  numbers taken from the source; `Matchmaking.findMatchCandidates` keeps
  the counterfactual spec-described semantics where a claim needs it.
-/

namespace Elo

/-- JavaScript `Math.round`: nearest integer, ties toward `+∞`
(`Math.round x = ⌊x + 0.5⌋`). -/
noncomputable def jsRound (x : ℝ) : ℤ := ⌊x + 1/2⌋

/-- Rounding to two decimal places as elo.js writes it:
`Math.round (x * 100) / 100`. -/
noncomputable def round2 (x : ℝ) : ℝ := (jsRound (x * 100) : ℝ) / 100

/-- `calculateExpectedScore` of elo.js:
`1 / (1 + Math.pow(10, (opponentRating - playerRating) / 400))`. -/
noncomputable def calculateExpectedScore (playerRating opponentRating : ℝ) : ℝ :=
  1 / (1 + (10 : ℝ) ^ ((opponentRating - playerRating) / 400))

/-- `calculateNewRating` of elo.js:
`Math.round((currentRating + kFactor * (actualScore - expectedScore)) * 100) / 100`. -/
noncomputable def calculateNewRating (currentRating actualScore expectedScore kFactor : ℝ) : ℝ :=
  round2 (currentRating + kFactor * (actualScore - expectedScore))

/-- `getKFactor` of elo.js.  The games-played count is a non-negative
integer; the returned K-factor is one of the integers 32, 24, 16. -/
def getKFactor (gamesPlayed : ℕ) : ℕ :=
  if gamesPlayed < 10 then 32
  else if gamesPlayed < 30 then 24
  else 16

/-- `calculateWinProbability` of elo.js: an alias for the expected score. -/
noncomputable def calculateWinProbability (playerRating opponentRating : ℝ) : ℝ :=
  calculateExpectedScore playerRating opponentRating

/-- The `{rating, gamesPlayed}` input record of `calculateRatingChanges`. -/
structure Player where
  rating : ℝ
  gamesPlayed : ℕ

/-- One player's part of the `calculateRatingChanges` output. -/
structure PlayerDelta where
  newRating : ℝ
  ratingChange : ℝ
  kFactor : ℕ

/-- The output record of `calculateRatingChanges`. -/
structure RatingChanges where
  player1 : PlayerDelta
  player2 : PlayerDelta

/-- The `switch (result)` of `calculateRatingChanges`: the pair of actual
scores for a recognised result string, `none` for the `default:` branch
(which throws `Invalid match result`). -/
noncomputable def actualScores (result : String) : Option (ℝ × ℝ) :=
  if result = "player1_win" then some (1, 0)
  else if result = "player2_win" then some (0, 1)
  else if result = "draw" then some (1/2, 1/2)
  else none

/-- `calculateRatingChanges` of elo.js.  `none` models the thrown
`Invalid match result` error of the `default:` branch of the switch. -/
noncomputable def calculateRatingChanges (player1 player2 : Player) (result : String) :
    Option RatingChanges :=
  let player1Expected := calculateExpectedScore player1.rating player2.rating
  let player2Expected := calculateExpectedScore player2.rating player1.rating
  let player1KFactor := getKFactor player1.gamesPlayed
  let player2KFactor := getKFactor player2.gamesPlayed
  match actualScores result with
  | none => none
  | some (player1ActualScore, player2ActualScore) =>
    let player1NewRating :=
      calculateNewRating player1.rating player1ActualScore player1Expected player1KFactor
    let player2NewRating :=
      calculateNewRating player2.rating player2ActualScore player2Expected player2KFactor
    some
      { player1 :=
          { newRating := player1NewRating
            ratingChange := round2 (player1NewRating - player1.rating)
            kFactor := player1KFactor }
        player2 :=
          { newRating := player2NewRating
            ratingChange := round2 (player2NewRating - player2.rating)
            kFactor := player2KFactor } }

end Elo

namespace JsElo

/-- A JavaScript number as the rating computation sees it: either NaN or
an ordinary (finite, idealised) number. -/
inductive JsNum where
  | nan : JsNum
  | num : ℝ → JsNum

namespace JsNum

/-- IEEE-style addition: NaN absorbs. -/
noncomputable def add : JsNum → JsNum → JsNum
  | nan, _ => nan
  | _, nan => nan
  | num a, num b => num (a + b)

/-- IEEE-style subtraction: NaN absorbs. -/
noncomputable def sub : JsNum → JsNum → JsNum
  | nan, _ => nan
  | _, nan => nan
  | num a, num b => num (a - b)

/-- IEEE-style multiplication: NaN absorbs. -/
noncomputable def mul : JsNum → JsNum → JsNum
  | nan, _ => nan
  | _, nan => nan
  | num a, num b => num (a * b)

/-- IEEE-style division: NaN absorbs.  (Division by zero, which JS sends
to ±Infinity, does not occur on the paths modelled here: the divisors
are `1 + 10^x > 0`, 400 and 100.) -/
noncomputable def div : JsNum → JsNum → JsNum
  | nan, _ => nan
  | _, nan => nan
  | num a, num b => num (a / b)

/-- `Math.pow(10, x)`: NaN exponent gives NaN. -/
noncomputable def pow10 : JsNum → JsNum
  | nan => nan
  | num x => num ((10 : ℝ) ^ x)

/-- `Math.round`: `Math.round NaN = NaN`, otherwise `⌊x + 0.5⌋`. -/
noncomputable def jsRoundN : JsNum → JsNum
  | nan => nan
  | num x => num (⌊x + 1/2⌋ : ℤ)

/-- The JS comparison `x < c`: false whenever `x` is NaN. -/
noncomputable def ltNum (x : JsNum) (c : ℝ) : Bool :=
  match x with
  | nan => false
  | num v => decide (v < c)

/-- Whether the value is NaN. -/
def isNaN : JsNum → Bool
  | nan => true
  | num _ => false

end JsNum

/-- `calculateExpectedScore` evaluated in JS-number arithmetic. -/
noncomputable def calculateExpectedScoreN (playerRating opponentRating : JsNum) : JsNum :=
  (JsNum.num 1).div ((JsNum.num 1).add
    (((opponentRating.sub playerRating).div (JsNum.num 400)).pow10))

/-- `calculateNewRating` evaluated in JS-number arithmetic. -/
noncomputable def calculateNewRatingN (currentRating actualScore expectedScore kFactor : JsNum) :
    JsNum :=
  (((currentRating.add (kFactor.mul (actualScore.sub expectedScore))).mul
      (JsNum.num 100)).jsRoundN).div (JsNum.num 100)

/-- `getKFactor` evaluated in JS-number arithmetic: both `NaN < 10` and
`NaN < 30` are false in JS, so a NaN games count falls to the 16 branch. -/
noncomputable def getKFactorN (gamesPlayed : JsNum) : JsNum :=
  if gamesPlayed.ltNum 10 then JsNum.num 32
  else if gamesPlayed.ltNum 30 then JsNum.num 24
  else JsNum.num 16

/-- The `{rating, gamesPlayed}` record with raw JS numbers. -/
structure JsPlayer where
  rating : JsNum
  gamesPlayed : JsNum

/-- One player's output record with raw JS numbers. -/
structure JsPlayerDelta where
  newRating : JsNum
  ratingChange : JsNum
  kFactor : JsNum

/-- The `calculateRatingChanges` output with raw JS numbers. -/
structure JsRatingChanges where
  player1 : JsPlayerDelta
  player2 : JsPlayerDelta

/-- The actual-score pair in JS numbers (`none` = the thrown error). -/
noncomputable def actualScoresN (result : String) : Option (JsNum × JsNum) :=
  if result = "player1_win" then some (JsNum.num 1, JsNum.num 0)
  else if result = "player2_win" then some (JsNum.num 0, JsNum.num 1)
  else if result = "draw" then some (JsNum.num (1/2), JsNum.num (1/2))
  else none

/-- `calculateRatingChanges` evaluated in JS-number arithmetic: the only
error path (`none`) is the invalid-result throw; NaN operands flow
through every arithmetic step unchecked. -/
noncomputable def calculateRatingChangesN (player1 player2 : JsPlayer) (result : String) :
    Option JsRatingChanges :=
  let player1Expected := calculateExpectedScoreN player1.rating player2.rating
  let player2Expected := calculateExpectedScoreN player2.rating player1.rating
  let player1KFactor := getKFactorN player1.gamesPlayed
  let player2KFactor := getKFactorN player2.gamesPlayed
  match actualScoresN result with
  | none => none
  | some (player1ActualScore, player2ActualScore) =>
    let player1NewRating :=
      calculateNewRatingN player1.rating player1ActualScore player1Expected player1KFactor
    let player2NewRating :=
      calculateNewRatingN player2.rating player2ActualScore player2Expected player2KFactor
    some
      { player1 :=
          { newRating := player1NewRating
            ratingChange := (player1NewRating.sub player1.rating).mul (JsNum.num 100)
              |>.jsRoundN |>.div (JsNum.num 100)
            kFactor := player1KFactor }
        player2 :=
          { newRating := player2NewRating
            ratingChange := (player2NewRating.sub player2.rating).mul (JsNum.num 100)
              |>.jsRoundN |>.div (JsNum.num 100)
            kFactor := player2KFactor } }

end JsElo

namespace Matchmaking

/-- A row of `player_profiles` as the candidate query reads it. -/
structure ProfileRow where
  userId : ℕ
  sportId : ℕ
  rating : ℚ
  gamesPlayed : ℕ
  isActive : Bool
deriving DecidableEq

/-- A row of `users` as the candidate query reads it. -/
structure UserRow where
  id : ℕ
  firstName : String
  lastName : String
  profileImageUrl : String
  isVerified : Bool
deriving DecidableEq

/-- A row of `user_locations`; the stored PostGIS point is a coordinate
pair. -/
structure LocationRow where
  userId : ℕ
  loc : ℚ × ℚ
  isPrimary : Bool
deriving DecidableEq

/-- A row of `match_requests` (the columns the exclusion subquery reads). -/
structure MatchRequestRow where
  requesterId : ℕ
  sportId : ℕ
  status : String
deriving DecidableEq

/-- The tables `findMatchCandidates` queries. -/
structure Database where
  userLocations : List LocationRow
  playerProfiles : List ProfileRow
  users : List UserRow
  matchRequests : List MatchRequestRow

/-- The requester-location lookup
(`SELECT location FROM user_locations WHERE user_id = $1 AND is_primary = true`,
first row): `none` models the empty result set. -/
def primaryLocation (db : Database) (userId : ℕ) : Option (ℚ × ℚ) :=
  (db.userLocations.find? fun ul => decide (ul.userId = userId) && ul.isPrimary).map (·.loc)

/-- The `NOT EXISTS` subquery: the candidate holds an active match
request for the same sport. -/
def hasActiveRequest (db : Database) (uid sportId : ℕ) : Bool :=
  db.matchRequests.any fun mr =>
    decide (mr.requesterId = uid) && decide (mr.sportId = sportId) &&
      decide (mr.status = "active")

/-- One element of the three-way join
`player_profiles JOIN users JOIN user_locations`. -/
structure JoinedRow where
  pp : ProfileRow
  u : UserRow
  ul : LocationRow
deriving DecidableEq

/-- The join of the candidate query: `pp.user_id = u.id` and
`ul.user_id = u.id AND ul.is_primary = true` are the join conditions. -/
def joinedRows (db : Database) : List JoinedRow :=
  db.playerProfiles.flatMap fun pp =>
    (db.users.filter fun u => decide (u.id = pp.userId)).flatMap fun u =>
      (db.userLocations.filter fun ul => decide (ul.userId = u.id) && ul.isPrimary).map fun ul =>
        ⟨pp, u, ul⟩

/-- The rating filter as the spec describes it: with both bounds
present, `pp.rating BETWEEN min AND max`, otherwise
`ABS(pp.rating - userRating) <= maxRatingDiff`.  This is an *intended*
(counterfactual) semantics: the fragment the source actually builds
(lines 647-654) reads `pp.rating BETWEEN $5 AND $6` resp.
`ABS(pp.rating - $5) <= $6` because `paramCount` starts at 5 while five
parameters are already bound — so `$5` is `maxDistanceKm * 1000` and
`$6` the first pushed value — and an omitted bound arrives as
`undefined`, which passes the `!== null` test into the BETWEEN branch
(see `queryParams` and `ratingFilterParams` for the faithful binding);
the statement never executes at all (`runCandidatesQuery`). -/
def ratingPred (userRating : ℚ) (low high : Option ℚ) (maxRatingDiff : ℚ) (r : ℚ) : Bool :=
  match low, high with
  | some mn, some mx => decide (mn ≤ r) && decide (r ≤ mx)
  | _, _ => decide (|r - userRating| ≤ maxRatingDiff)

/-- The fixed conjuncts of the `WHERE` clause: same sport, not the
requester, active profile, verified user, within
`maxDistanceKm * 1000` metres of the requester
(`ST_DWithin`, with `dist` standing for the PostGIS distance), and no
active match request of their own. -/
def whereBase (db : Database) (dist : ℚ × ℚ → ℚ × ℚ → ℚ) (userId sportId : ℕ)
    (maxDistanceKm : ℚ) (userLoc : ℚ × ℚ) (row : JoinedRow) : Bool :=
  decide (row.pp.sportId = sportId) &&
  decide (row.pp.userId ≠ userId) &&
  row.pp.isActive &&
  row.u.isVerified &&
  decide (dist row.ul.loc userLoc ≤ maxDistanceKm * 1000) &&
  !(hasActiveRequest db row.pp.userId sportId)

/-- The joined rows that survive the whole `WHERE` clause. -/
def candidateRows (db : Database) (dist : ℚ × ℚ → ℚ × ℚ → ℚ) (userId sportId : ℕ)
    (userRating maxDistanceKm : ℚ) (low high : Option ℚ) (maxRatingDiff : ℚ)
    (userLoc : ℚ × ℚ) : List JoinedRow :=
  (joinedRows db).filter fun row =>
    whereBase db dist userId sportId maxDistanceKm userLoc row &&
      ratingPred userRating low high maxRatingDiff row.pp.rating

/-- A tuple of the `SELECT DISTINCT` list.  `distance` is
`ST_Distance(ul.location, requesterPoint)` in metres.  The
`win_probability` column is a function of `rating` and the requester's
rating and is added at the final projection, so it is not repeated
here. -/
structure SelRow where
  userId : ℕ
  firstName : String
  lastName : String
  profileImageUrl : String
  rating : ℚ
  gamesPlayed : ℕ
  distance : ℚ
deriving DecidableEq

/-- The `SELECT` projection of one joined row. -/
def selectRow (dist : ℚ × ℚ → ℚ × ℚ → ℚ) (userLoc : ℚ × ℚ) (row : JoinedRow) : SelRow :=
  { userId := row.pp.userId
    firstName := row.u.firstName
    lastName := row.u.lastName
    profileImageUrl := row.u.profileImageUrl
    rating := row.pp.rating
    gamesPlayed := row.pp.gamesPlayed
    distance := dist row.ul.loc userLoc }

/-- The three-tier rating-closeness bucket of the spec's ordering
contract.  The source's `ORDER BY CASE` literally compares `pp.rating`
with `$4`, which is bound to the requester's *latitude*
(`queryParams[3] = userLocation.coordinates[1]`), not the rating; and
the statement never executes (`runCandidatesQuery`).  The rating-based
tier is kept to state what the spec's ordering asks. -/
def tier (userRating r : ℚ) : ℕ :=
  if |r - userRating| ≤ 100 then 1
  else if |r - userRating| ≤ 200 then 2
  else 3

/-- The `ORDER BY` comparison: ascending tier, then ascending distance. -/
def orderLe (userRating : ℚ) (a b : SelRow) : Bool :=
  decide (tier userRating a.rating < tier userRating b.rating) ||
    (decide (tier userRating a.rating = tier userRating b.rating) &&
      decide (a.distance ≤ b.distance))

/-- The result set the spec describes for the statement: join,
`WHERE`-filter, `DISTINCT`, `ORDER BY`, `LIMIT 10`.  Counterfactual:
the statement the source builds is invalid SQL (the `SELECT` list
splices JavaScript source text, line 665; seven values are bound for
placeholders `$1..$6`), so PostgreSQL rejects it and no result set is
ever produced — `findMatchCandidatesExec` models the actual execution.
This definition is kept to state the no-surviving-candidate case of the
empty-result claim. -/
def queryRows (db : Database) (dist : ℚ × ℚ → ℚ × ℚ → ℚ) (userId sportId : ℕ)
    (userRating maxDistanceKm : ℚ) (low high : Option ℚ) (maxRatingDiff : ℚ)
    (userLoc : ℚ × ℚ) : List SelRow :=
  ((((candidateRows db dist userId sportId userRating maxDistanceKm low high maxRatingDiff
        userLoc).map
      (selectRow dist userLoc)).dedup).mergeSort (orderLe userRating)).take 10

/-- JS `Math.round (d / 1000 * 100) / 100`: metres to kilometres rounded
to two decimals. -/
def kmDistance (d : ℚ) : ℚ := (⌊d / 1000 * 100 + 1/2⌋ : ℚ) / 100

/-- An element of the list `findMatchCandidates` returns. -/
structure Candidate where
  userId : ℕ
  name : String
  profileImageUrl : String
  rating : ℚ
  gamesPlayed : ℕ
  distance : ℚ
  winProbability : ℝ

/-- The `result.rows.map(...)` projection of one result row, with
`winProbability` recomputed in-process from both ratings as the spec's
design note prescribes.  The source instead splices the JavaScript
source of `calculateWinProbability` into the query text (line 665) —
which is what makes the statement unparseable — and even that intended
injected call passes `$4`, the requester's latitude, as the player
rating.  The projection is unreachable in execution, since the
statement always errors before any row exists. -/
noncomputable def toCandidate (userRating : ℚ) (row : SelRow) : Candidate :=
  { userId := row.userId
    name := row.firstName ++ " " ++ row.lastName
    profileImageUrl := row.profileImageUrl
    rating := row.rating
    gamesPlayed := row.gamesPlayed
    distance := kmDistance row.distance
    winProbability := Elo.calculateWinProbability (userRating : ℝ) (row.rating : ℝ) }

/-- `findMatchCandidates` of matches.js under the counterfactual that
its built statement executed with the spec-described filter and order:
look up the requester's primary location (empty list when absent), run
the candidate query, project each row to a `Candidate`.  The function
is total — the JS `catch` returns `[]` for any storage error, so no
error ever reaches the caller.  As the source actually runs, the
statement always errors and every call returns `[]`
(`findMatchCandidatesExec`); the claims proved about this definition
returning `[]` therefore hold of the program a fortiori. -/
noncomputable def findMatchCandidates (db : Database) (dist : ℚ × ℚ → ℚ × ℚ → ℚ)
    (userId sportId : ℕ) (userRating maxDistanceKm : ℚ) (low high : Option ℚ)
    (maxRatingDiff : ℚ := 200) : List Candidate :=
  match primaryLocation db userId with
  | none => []
  | some userLoc =>
    (queryRows db dist userId sportId userRating maxDistanceKm low high maxRatingDiff
      userLoc).map (toCandidate userRating)

/-- A JavaScript optional value as the route layer passes the band
bounds: `undefined` when the field is omitted from the request body
(`/request`, a Joi `optional()` field), literal `null` from the
`/candidates` route, or a number. -/
inductive JsOpt (α : Type) where
  | undef : JsOpt α
  | null : JsOpt α
  | val : α → JsOpt α

/-- The JS strict test `x !== null`: true for `undefined` and for
numbers, false only for `null`. -/
def JsOpt.neNull {α : Type} : JsOpt α → Bool
  | .null => false
  | _ => true

/-- node-postgres serialisation of a bound JS value: both `undefined`
and `null` are sent as SQL NULL. -/
def JsOpt.toSql : JsOpt ℚ → Option ℚ
  | .val a => some a
  | _ => none

/-- The five parameters bound up front (line 645):
`[userId, sportId, lon, lat, maxDistanceKm * 1000]`. -/
def baseParams (userId sportId : ℕ) (lon lat radiusMetres : ℚ) : List (Option ℚ) :=
  [some (userId : ℚ), some (sportId : ℚ), some lon, some lat, some radiusMetres]

/-- The two parameters the dynamically built rating filter pushes
(lines 648-653): `minRating, maxRating` when
`minRating !== null && maxRating !== null` — so an omitted bound,
which arrives as `undefined`, takes this branch too and is bound as
NULL — otherwise `userRating, maxRatingDiff`. -/
def ratingFilterParams (userRating : ℚ) (minRating maxRating : JsOpt ℚ)
    (maxRatingDiff : ℚ) : List (Option ℚ) :=
  if minRating.neNull && maxRating.neNull then [minRating.toSql, maxRating.toSql]
  else [some userRating, some maxRatingDiff]

/-- The full bind list of the candidate statement: the five base
parameters plus the two filter parameters — seven values in either
branch. -/
def queryParams (userId sportId : ℕ) (lon lat radiusMetres userRating : ℚ)
    (minRating maxRating : JsOpt ℚ) (maxRatingDiff : ℚ) : List (Option ℚ) :=
  baseParams userId sportId lon lat radiusMetres ++
    ratingFilterParams userRating minRating maxRating maxRatingDiff

/-- The placeholder numbers occurring in the fixed query text:
`$1` (`pp.user_id != $1`), `$2` (`pp.sport_id = $2`, `mr.sport_id = $2`),
`$3` (`ST_GeomFromText($3, 4326)` twice — fed the bare longitude, itself
a type error), `$4` (the spliced win-probability call and the
`ORDER BY CASE`, i.e. the requester's latitude) and `$5` (`ST_DWithin`
radius). -/
def fixedTextPlaceholders : List ℕ := [1, 2, 3, 4, 5]

/-- The placeholders the dynamically built rating filter writes:
`paramCount` starts at 5 and is interpolated twice with postfix
increment, so both branches read `$5` and `$6`, although the filter's
two values are bound at positions 6 and 7. -/
def ratingFilterPlaceholders : List ℕ := [5, 6]

/-- The statement's highest referenced placeholder (6).  Seven values
are bound (`queryParams`), a count PostgreSQL rejects. -/
def statementPlaceholderMax : ℕ :=
  (fixedTextPlaceholders ++ ratingFilterPlaceholders).foldr max 0

/-- Executing the built candidate statement.  PostgreSQL rejects it
before producing any row: the `SELECT` list contains the spliced
JavaScript source of `calculateWinProbability` (line 665), which is not
SQL — a parse error on its own — and independently the bind supplies
one value per element of `params` for a statement whose highest
placeholder is `$6`.  The modelled check is the bind-count rule, which
is derivable from the construction; the `ok` branch (what a well-formed
statement would return) is provably never reached for the built bind
list. -/
def runCandidatesQuery (params : List (Option ℚ)) : Except Unit (List Candidate) :=
  if params.length = statementPlaceholderMax then .ok [] else .error ()

/-- `findMatchCandidates` of matches.js as it actually executes: the
requester-location lookup (no row → `[]`, lines 630-638), then
`pool.query` on the built statement — which always raises — and the
`catch` that returns `[]` (lines 702-705).  The `ok` branch passes the
statement's rows on; it is unreachable.  Every call returns `[]`. -/
def findMatchCandidatesExec (db : Database) (userId sportId : ℕ)
    (userRating maxDistanceKm : ℚ) (minRating maxRating : JsOpt ℚ)
    (maxRatingDiff : ℚ := 200) : List Candidate :=
  match primaryLocation db userId with
  | none => []
  | some userLoc =>
    match runCandidatesQuery (queryParams userId sportId userLoc.1 userLoc.2
        (maxDistanceKm * 1000) userRating minRating maxRating maxRatingDiff) with
    | .ok candidates => candidates
    | .error _ => []

end Matchmaking

namespace MatchFlow

/-- A self-reported outcome (`result` of the report schema:
win / loss / draw). -/
inductive Report where
  | win : Report
  | loss : Report
  | draw : Report
deriving DecidableEq

/-- The `status` column of `matches`. -/
inductive MatchStatus where
  | pending : MatchStatus
  | confirmed : MatchStatus
  | completed : MatchStatus
  | disputed : MatchStatus
  | cancelled : MatchStatus
deriving DecidableEq

/-- A row of `player_profiles` as the result-processing code updates it. -/
structure Profile where
  rating : ℝ
  gamesPlayed : ℕ
  wins : ℕ
  losses : ℕ
  draws : ℕ

/-- A row of `matches` (the columns the reporting flow touches). -/
structure MatchRow where
  player1Id : ℕ
  player2Id : ℕ
  status : MatchStatus
  player1Result : Option Report
  player2Result : Option Report
  player1RatingBefore : Option ℝ
  player2RatingBefore : Option ℝ
  player1RatingAfter : Option ℝ
  player2RatingAfter : Option ℝ
  ratingChangePlayer1 : Option ℝ
  ratingChangePlayer2 : Option ℝ

/-- A match row together with the two participants' profile rows for the
match's sport. -/
structure ProcState where
  m : MatchRow
  p1 : Profile
  p2 : Profile

/-- The result-pair reconciliation of `processMatchResult`: the Elo
result string for the three consistent report pairs, `none` for every
inconsistent pair (the dispute branch). -/
def eloResultOf : Report → Report → Option String
  | .win, .loss => some "player1_win"
  | .loss, .win => some "player2_win"
  | .draw, .draw => some "draw"
  | _, _ => none

/-- The per-player win/loss/draw counter increments. -/
def tallied (r : Report) (p : Profile) (newRating : ℝ) : Profile :=
  { rating := newRating
    gamesPlayed := p.gamesPlayed + 1
    wins := p.wins + (if r = .win then 1 else 0)
    losses := p.losses + (if r = .loss then 1 else 0)
    draws := p.draws + (if r = .draw then 1 else 0) }

/-- `processMatchResult` of matches.js, given the match (with both
reports recorded) and the two profiles.  The second component is the
Rating Engine invocation: `some` exactly when `calculateRatingChanges`
was called and returned.  Inconsistent reports set the status to
`disputed` and change nothing else.  (If `calculateRatingChanges` threw,
the exception would propagate and nothing would be persisted; that
unreachable branch returns the state unchanged.) -/
noncomputable def processMatchResult (st : ProcState) (player1Result player2Result : Report) :
    ProcState × Option Elo.RatingChanges :=
  match eloResultOf player1Result player2Result with
  | none => ({ st with m := { st.m with status := .disputed } }, none)
  | some eloResult =>
    match Elo.calculateRatingChanges ⟨st.p1.rating, st.p1.gamesPlayed⟩
        ⟨st.p2.rating, st.p2.gamesPlayed⟩ eloResult with
    | none => (st, none)
    | some ratingChanges =>
      ({ m :=
           { st.m with
             status := .completed
             player1RatingBefore := some st.p1.rating
             player2RatingBefore := some st.p2.rating
             player1RatingAfter := some ratingChanges.player1.newRating
             player2RatingAfter := some ratingChanges.player2.newRating
             ratingChangePlayer1 := some ratingChanges.player1.ratingChange
             ratingChangePlayer2 := some ratingChanges.player2.ratingChange }
         p1 := tallied player1Result st.p1 ratingChanges.player1.newRating
         p2 := tallied player2Result st.p2 ratingChanges.player2.newRating },
       some ratingChanges)

/-- The HTTP outcome of one `POST /report-result` call. -/
inductive Resp where
  | ok : Resp
  | notFoundOrNotConfirmed : Resp
  | alreadyReported : Resp
deriving DecidableEq

/-- The `POST /api/matches/report-result` handler for one stored match:
the lookup requires the reporter to be a participant and the status to
be `confirmed` (else 404); a participant who already reported is
rejected with 400; otherwise the report is recorded and, once both
reports are present, `processMatchResult` runs.  The third component is
the Rating Engine invocation of this call. -/
noncomputable def reportResult (st : ProcState) (reporterId : ℕ) (result : Report) :
    ProcState × Resp × Option Elo.RatingChanges :=
  if st.m.status = .confirmed ∧ (st.m.player1Id = reporterId ∨ st.m.player2Id = reporterId) then
    let isPlayer1 := st.m.player1Id = reporterId
    let existing := if isPlayer1 then st.m.player1Result else st.m.player2Result
    if existing.isSome then (st, .alreadyReported, none)
    else
      let m' :=
        if isPlayer1 then { st.m with player1Result := some result }
        else { st.m with player2Result := some result }
      let st' := { st with m := m' }
      match m'.player1Result, m'.player2Result with
      | some r1, some r2 =>
        let processed := processMatchResult st' r1 r2
        (processed.1, .ok, processed.2)
      | _, _ => (st', .ok, none)
  else (st, .notFoundOrNotConfirmed, none)

end MatchFlow

section SampleData

/-- A concrete profile row used to instantiate hypothesis-bearing
theorems. -/
def sampleProfile : MatchFlow.Profile := ⟨1500, 5, 2, 2, 1⟩

/-- A confirmed match in which both participants claimed a win. -/
def bothWinMatch : MatchFlow.MatchRow :=
  ⟨1, 2, .confirmed, some .win, some .win, none, none, none, none, none, none⟩

/-- The state fed to `processMatchResult` for the both-win dispute. -/
def bothWinState : MatchFlow.ProcState := ⟨bothWinMatch, sampleProfile, sampleProfile⟩

/-- A confirmed match in which only player 1 has reported (a win). -/
def halfReportedMatch : MatchFlow.MatchRow :=
  ⟨1, 2, .confirmed, some .win, none, none, none, none, none, none, none⟩

/-- The state fed to `reportResult` for player 2's consistent report. -/
def halfReportedState : MatchFlow.ProcState := ⟨halfReportedMatch, sampleProfile, sampleProfile⟩

/-- The failing input for the rating-band claim: requester 1 (rating
1500, primary location the origin) and one verified, active, in-band
candidate — user 2 at the same location with rating 1600 and no active
match request. -/
def c8db : Matchmaking.Database :=
  { userLocations := [⟨1, (0, 0), true⟩, ⟨2, (0, 0), true⟩]
    playerProfiles := [⟨2, 7, 1600, 5, true⟩]
    users := [⟨2, "B", "b", "", true⟩]
    matchRequests := [] }

/-- A distance oracle for the counterfactual spec-described query on
`c8db` (both stored locations coincide). -/
def c8dist : ℚ × ℚ → ℚ × ℚ → ℚ := fun _ _ => 0

/-- The joined row of candidate 2 in `c8db`. -/
def c8row : Matchmaking.JoinedRow :=
  ⟨⟨2, 7, 1600, 5, true⟩, ⟨2, "B", "b", "", true⟩, ⟨2, (0, 0), true⟩⟩

end SampleData

namespace JsElo

namespace JsNum

@[simp] theorem add_nan : ∀ x : JsNum, x.add nan = nan := by
  intro x; cases x <;> rfl

@[simp] theorem nan_add : ∀ x : JsNum, (nan).add x = nan := by
  intro x; cases x <;> rfl

@[simp] theorem sub_nan : ∀ x : JsNum, x.sub nan = nan := by
  intro x; cases x <;> rfl

@[simp] theorem nan_sub : ∀ x : JsNum, (nan).sub x = nan := by
  intro x; cases x <;> rfl

@[simp] theorem mul_nan : ∀ x : JsNum, x.mul nan = nan := by
  intro x; cases x <;> rfl

@[simp] theorem nan_mul : ∀ x : JsNum, (nan).mul x = nan := by
  intro x; cases x <;> rfl

@[simp] theorem div_nan : ∀ x : JsNum, x.div nan = nan := by
  intro x; cases x <;> rfl

@[simp] theorem nan_div : ∀ x : JsNum, (nan).div x = nan := by
  intro x; cases x <;> rfl

@[simp] theorem pow10_nan : (nan).pow10 = nan := rfl

@[simp] theorem jsRoundN_nan : (nan).jsRoundN = nan := rfl

@[simp] theorem isNaN_nan : (nan).isNaN = true := rfl

end JsNum

end JsElo

/-- C2: `getKFactor` returns 32 below 10 games, 24 from 10 through 29,
and 16 from 30 on, with exact values at the tier boundaries 9, 10, 29
and 30. -/
theorem getKFactor_tier_boundaries :
    (∀ gamesPlayed : ℕ,
      (gamesPlayed < 10 → Elo.getKFactor gamesPlayed = 32) ∧
      (10 ≤ gamesPlayed ∧ gamesPlayed ≤ 29 → Elo.getKFactor gamesPlayed = 24) ∧
      (30 ≤ gamesPlayed → Elo.getKFactor gamesPlayed = 16)) ∧
    Elo.getKFactor 9 = 32 ∧ Elo.getKFactor 10 = 24 ∧ Elo.getKFactor 29 = 24 ∧
    Elo.getKFactor 30 = 16 := by
  refine ⟨fun g => ⟨?_, ?_, ?_⟩, by decide, by decide, by decide, by decide⟩ <;>
    · intro h; simp only [Elo.getKFactor]; split_ifs <;> omega

/-- C3: the expected score is `1 / (1 + 10^((b - a)/400))`, and the two
players' expected scores sum to 1 (exactly, hence within the spec's
`1e-9` tolerance). -/
theorem expectedScore_formula_and_complement :
    ∀ a b : ℝ,
      Elo.calculateExpectedScore a b = 1 / (1 + (10 : ℝ) ^ ((b - a) / 400)) ∧
      |Elo.calculateExpectedScore a b + Elo.calculateExpectedScore b a - 1| ≤ 1e-9 := by
  intro a b
  refine ⟨rfl, ?_⟩
  have key : Elo.calculateExpectedScore a b + Elo.calculateExpectedScore b a = 1 := by
    unfold Elo.calculateExpectedScore
    have ht : (0 : ℝ) < (10 : ℝ) ^ ((b - a) / 400) := Real.rpow_pos_of_pos (by norm_num) _
    have hinv : (10 : ℝ) ^ ((a - b) / 400) = ((10 : ℝ) ^ ((b - a) / 400))⁻¹ := by
      rw [show (a - b) / 400 = -((b - a) / 400) by ring, Real.rpow_neg (by norm_num)]
    rw [hinv]
    field_simp
    ring
  rw [key]
  norm_num

/-- The three recognised result strings and only they produce actual
scores; the `default:` branch throws. -/
theorem actualScores_none_iff :
    ∀ result : String,
      Elo.actualScores result = none ↔
        ¬(result = "player1_win" ∨ result = "player2_win" ∨ result = "draw") := by
  intro result
  unfold Elo.actualScores
  split_ifs <;> simp_all

/-- C5: `calculateRatingChanges` signals the invalid-argument error
exactly for result values outside the three defined outcomes, and
returns normally on each of the three defined outcomes. -/
theorem ratingChanges_error_iff_invalid_result :
    ∀ (player1 player2 : Elo.Player) (result : String),
      (Elo.calculateRatingChanges player1 player2 result = none ↔
        ¬(result = "player1_win" ∨ result = "player2_win" ∨ result = "draw")) ∧
      ((result = "player1_win" ∨ result = "player2_win" ∨ result = "draw") →
        (Elo.calculateRatingChanges player1 player2 result).isSome = true) := by
  intro player1 player2 result
  have hmain : Elo.calculateRatingChanges player1 player2 result = none ↔
      Elo.actualScores result = none := by
    unfold Elo.calculateRatingChanges
    rcases h : Elo.actualScores result with _ | ⟨s1, s2⟩ <;> simp [h]
  constructor
  · rw [hmain]
    exact actualScores_none_iff result
  · intro h
    have hne : ¬Elo.calculateRatingChanges player1 player2 result = none := by
      rw [hmain, actualScores_none_iff result]
      exact not_not_intro h
    exact Option.isSome_iff_ne_none.mpr hne

/-- Equal ratings give an expected score of one half. -/
theorem expectedScore_equal_ratings : Elo.calculateExpectedScore 1500 1500 = 1/2 := by
  unfold Elo.calculateExpectedScore
  norm_num

/-- Winner's new rating in the C4 scenario. -/
theorem newRating_1500_win : Elo.calculateNewRating 1500 1 (1/2) 32 = 1516 := by
  unfold Elo.calculateNewRating Elo.round2 Elo.jsRound
  have h : ((1500 : ℝ) + 32 * (1 - 1/2)) * 100 + 1/2 = 303201/2 := by norm_num
  rw [h, show ⌊(303201 : ℝ)/2⌋ = 151600 by rw [Int.floor_eq_iff]; norm_num]
  norm_num

/-- Loser's new rating in the C4 scenario. -/
theorem newRating_1500_loss : Elo.calculateNewRating 1500 0 (1/2) 32 = 1484 := by
  unfold Elo.calculateNewRating Elo.round2 Elo.jsRound
  have h : ((1500 : ℝ) + 32 * (0 - 1/2)) * 100 + 1/2 = 296801/2 := by norm_num
  rw [h, show ⌊(296801 : ℝ)/2⌋ = 148400 by rw [Int.floor_eq_iff]; norm_num]
  norm_num

/-- Winner's rounded rating change in the C4 scenario. -/
theorem ratingChange_1500_win : Elo.round2 ((1516 : ℝ) - 1500) = 16 := by
  unfold Elo.round2 Elo.jsRound
  have h : ((1516 : ℝ) - 1500) * 100 + 1/2 = 3201/2 := by norm_num
  rw [h, show ⌊(3201 : ℝ)/2⌋ = 1600 by rw [Int.floor_eq_iff]; norm_num]
  norm_num

/-- Loser's rounded rating change in the C4 scenario. -/
theorem ratingChange_1500_loss : Elo.round2 ((1484 : ℝ) - 1500) = -16 := by
  unfold Elo.round2 Elo.jsRound
  have h : ((1484 : ℝ) - 1500) * 100 + 1/2 = -(3199/2) := by norm_num
  rw [h, show ⌊-((3199 : ℝ)/2)⌋ = -1600 by rw [Int.floor_eq_iff]; norm_num]
  norm_num

/-- C4: `calculateRatingChanges({1500,5},{1500,5}, player1_win)` gives
player 1 the new rating 1516.0 with change +16 and K-factor 32, player 2
the new rating 1484.0, and the two new ratings are exactly
`calculateNewRating` at actual scores 1 and 0 with the expected score of
equal ratings and K = 32. -/
theorem ratingChanges_equal1500_player1_win :
    Elo.calculateRatingChanges ⟨1500, 5⟩ ⟨1500, 5⟩ ("player1_win") =
      some
        { player1 := { newRating := 1516, ratingChange := 16, kFactor := 32 }
          player2 := { newRating := 1484, ratingChange := -16, kFactor := 32 } } ∧
    (1516 : ℝ) = Elo.calculateNewRating 1500 1 (Elo.calculateExpectedScore 1500 1500) 32 ∧
    (1484 : ℝ) = Elo.calculateNewRating 1500 0 (Elo.calculateExpectedScore 1500 1500) 32 := by
  have hk : Elo.getKFactor 5 = 32 := by decide
  have hkr : ((Elo.getKFactor 5 : ℕ) : ℝ) = 32 := by rw [hk]; norm_num
  refine ⟨?_, ?_, ?_⟩
  · unfold Elo.calculateRatingChanges
    rw [show Elo.actualScores ("player1_win") = some (1, 0) from by
      unfold Elo.actualScores; simp]
    simp only [hk, Nat.cast_ofNat, expectedScore_equal_ratings, newRating_1500_win,
      newRating_1500_loss, ratingChange_1500_win, ratingChange_1500_loss]
  · rw [expectedScore_equal_ratings, newRating_1500_win]
  · rw [expectedScore_equal_ratings, newRating_1500_loss]

/-- C10 counterexample: with player 1's stored rating NaN and a valid
outcome, `calculateRatingChanges` does not signal any error — it returns
a result whose new ratings are NaN for both players, contradicting the
claim that NaN input propagates as an explicit error. -/
theorem ratingChangesN_nan_no_error :
    JsElo.calculateRatingChangesN ⟨.nan, .num 5⟩ ⟨.num 1500, .num 5⟩ ("player1_win") ≠ none ∧
    (JsElo.calculateRatingChangesN ⟨.nan, .num 5⟩ ⟨.num 1500, .num 5⟩ ("player1_win")).map
        (fun rc => (rc.player1.newRating.isNaN, rc.player2.newRating.isNaN)) =
      some (true, true) := by
  have hs : JsElo.actualScoresN ("player1_win") = some (.num 1, .num 0) := by
    unfold JsElo.actualScoresN; simp
  constructor
  · unfold JsElo.calculateRatingChangesN
    rw [hs]
    simp
  · unfold JsElo.calculateRatingChangesN
    rw [hs]
    simp [JsElo.calculateNewRatingN, JsElo.calculateExpectedScoreN]

/-- C10 as the code actually behaves: whenever either player's stored
rating is NaN, `calculateRatingChanges` with any of the three valid
outcomes returns normally (no error is raised — `none` arises only from
an invalid outcome string) and both returned new ratings are NaN. -/
theorem ratingChangesN_propagates_nan :
    ∀ (player1 player2 : JsElo.JsPlayer) (result : String),
      (player1.rating.isNaN = true ∨ player2.rating.isNaN = true) →
      (result = "player1_win" ∨ result = "player2_win" ∨ result = "draw") →
      (JsElo.calculateRatingChangesN player1 player2 result).map
          (fun rc => (rc.player1.newRating.isNaN, rc.player2.newRating.isNaN)) =
        some (true, true) := by
  intro player1 player2 result hnan hvalid
  obtain ⟨s1, s2, hs⟩ : ∃ a b, JsElo.actualScoresN result = some (a, b) := by
    rcases hvalid with h | h | h <;> subst h <;> exact ⟨_, _, rfl⟩
  unfold JsElo.calculateRatingChangesN
  rw [hs]
  rcases hnan with h | h
  · cases hpr : player1.rating with
    | num r => rw [hpr] at h; simp [JsElo.JsNum.isNaN] at h
    | nan =>
      simp [JsElo.calculateNewRatingN, JsElo.calculateExpectedScoreN, hpr]
  · cases hpr : player2.rating with
    | num r => rw [hpr] at h; simp [JsElo.JsNum.isNaN] at h
    | nan =>
      simp [JsElo.calculateNewRatingN, JsElo.calculateExpectedScoreN, hpr]

/-- C10 witness: the NaN-propagation theorem instantiated at a concrete
corrupted player record and the concrete outcome `player1_win`. -/
theorem ratingChangesN_propagates_nan_witness :
    (JsElo.calculateRatingChangesN ⟨.nan, .num 5⟩ ⟨.num 1500, .num 5⟩ ("player1_win")).map
        (fun rc => (rc.player1.newRating.isNaN, rc.player2.newRating.isNaN)) =
      some (true, true) :=
  ratingChangesN_propagates_nan ⟨.nan, .num 5⟩ ⟨.num 1500, .num 5⟩ ("player1_win")
    (Or.inl rfl) (Or.inl rfl)

/-- C6: inconsistent reports send the match to `disputed`, leave both
players' rating states untouched, and never invoke the Rating Engine. -/
theorem processMatchResult_inconsistent_disputes :
    ∀ (st : MatchFlow.ProcState) (r1 r2 : MatchFlow.Report),
      MatchFlow.eloResultOf r1 r2 = none →
      (MatchFlow.processMatchResult st r1 r2).1.m.status = .disputed ∧
      (MatchFlow.processMatchResult st r1 r2).1.p1 = st.p1 ∧
      (MatchFlow.processMatchResult st r1 r2).1.p2 = st.p2 ∧
      (MatchFlow.processMatchResult st r1 r2).2 = none := by
  intro st r1 r2 h
  unfold MatchFlow.processMatchResult
  rw [h]
  exact ⟨rfl, rfl, rfl, rfl⟩

/-- C6 witness: a confirmed match where both players reported a win. -/
theorem processMatchResult_inconsistent_disputes_witness :
    MatchFlow.eloResultOf .win .win = none ∧
    ((MatchFlow.processMatchResult bothWinState .win .win).1.m.status = .disputed ∧
      (MatchFlow.processMatchResult bothWinState .win .win).1.p1 = bothWinState.p1 ∧
      (MatchFlow.processMatchResult bothWinState .win .win).1.p2 = bothWinState.p2 ∧
      (MatchFlow.processMatchResult bothWinState .win .win).2 = none) :=
  ⟨rfl, processMatchResult_inconsistent_disputes bothWinState .win .win rfl⟩

/-- A consistent report pair always yields a result string the Rating
Engine accepts. -/
theorem ratingChanges_isSome_of_eloResult :
    ∀ (a b : MatchFlow.Report) (s : String) (p1 p2 : Elo.Player),
      MatchFlow.eloResultOf a b = some s →
      ∃ rc, Elo.calculateRatingChanges p1 p2 s = some rc := by
  intro a b s p1 p2 h
  cases a <;> cases b <;> simp [MatchFlow.eloResultOf] at h <;> subst h <;> exact ⟨_, rfl⟩

/-- A `reportResult` call on a match that is not confirmed changes
nothing and reports the 404 outcome. -/
theorem reportResult_not_confirmed :
    ∀ (st : MatchFlow.ProcState) (reporterId : ℕ) (result : MatchFlow.Report),
      st.m.status ≠ .confirmed →
      MatchFlow.reportResult st reporterId result = (st, .notFoundOrNotConfirmed, none) := by
  intro st reporterId result h
  unfold MatchFlow.reportResult
  rw [if_neg]
  intro hc
  exact h hc.1

/-- C7: on a confirmed match where exactly one side has reported, a
consistent second report completes the match with exactly one Rating
Engine invocation, and submitting the same second report again is
rejected (the match is no longer confirmed) without re-running the
rating update or changing any state. -/
theorem reportResult_completes_once :
    ∀ (st : MatchFlow.ProcState) (reporterId : ℕ) (result rOther : MatchFlow.Report)
      (s : String),
      st.m.status = .confirmed →
      ((st.m.player2Id = reporterId ∧ st.m.player1Id ≠ reporterId ∧
          st.m.player1Result = some rOther ∧ st.m.player2Result = none ∧
          MatchFlow.eloResultOf rOther result = some s) ∨
        (st.m.player1Id = reporterId ∧
          st.m.player1Result = none ∧ st.m.player2Result = some rOther ∧
          MatchFlow.eloResultOf result rOther = some s)) →
      (MatchFlow.reportResult st reporterId result).1.m.status = .completed ∧
      (MatchFlow.reportResult st reporterId result).2.1 = .ok ∧
      (MatchFlow.reportResult st reporterId result).2.2.isSome = true ∧
      MatchFlow.reportResult (MatchFlow.reportResult st reporterId result).1 reporterId result =
        ((MatchFlow.reportResult st reporterId result).1, .notFoundOrNotConfirmed, none) := by
  intro st reporterId result rOther s hconf hside
  have main :
      (MatchFlow.reportResult st reporterId result).1.m.status = .completed ∧
      (MatchFlow.reportResult st reporterId result).2.1 = .ok ∧
      (MatchFlow.reportResult st reporterId result).2.2.isSome = true := by
    rcases hside with ⟨h2, h1ne, hr1, hr2, helo⟩ | ⟨h1, hr1, hr2, helo⟩
    · obtain ⟨rc, hrc⟩ :=
        ratingChanges_isSome_of_eloResult rOther result s
          ⟨st.p1.rating, st.p1.gamesPlayed⟩ ⟨st.p2.rating, st.p2.gamesPlayed⟩ helo
      simp only [MatchFlow.reportResult, hconf, h2, true_and, or_true, if_true, h1ne,
        if_neg h1ne, hr1, hr2, Option.isSome_none, Bool.false_eq_true, if_false,
        MatchFlow.processMatchResult, helo, hrc]
      simp
    · obtain ⟨rc, hrc⟩ :=
        ratingChanges_isSome_of_eloResult result rOther s
          ⟨st.p1.rating, st.p1.gamesPlayed⟩ ⟨st.p2.rating, st.p2.gamesPlayed⟩ helo
      simp only [MatchFlow.reportResult, hconf, h1, true_and, true_or, if_true,
        if_pos h1, hr1, hr2, Option.isSome_none, Bool.false_eq_true, if_false,
        MatchFlow.processMatchResult, helo, hrc]
      simp
  refine ⟨main.1, main.2.1, main.2.2, ?_⟩
  apply reportResult_not_confirmed
  rw [main.1]
  simp

/-- C7 witness: player 2 reports a loss on the concrete half-reported
match whose player 1 already reported a win. -/
theorem reportResult_completes_once_witness :
    halfReportedState.m.status = .confirmed ∧
    ((MatchFlow.reportResult halfReportedState 2 .loss).1.m.status = .completed ∧
      (MatchFlow.reportResult halfReportedState 2 .loss).2.1 = .ok ∧
      (MatchFlow.reportResult halfReportedState 2 .loss).2.2.isSome = true ∧
      MatchFlow.reportResult (MatchFlow.reportResult halfReportedState 2 .loss).1 2 .loss =
        ((MatchFlow.reportResult halfReportedState 2 .loss).1, .notFoundOrNotConfirmed, none)) :=
  ⟨rfl,
    reportResult_completes_once halfReportedState 2 .loss .win ("player1_win") rfl
      (Or.inl ⟨rfl, by decide, rfl, rfl, rfl⟩)⟩

/-- The bind list always holds seven values: the five base parameters
plus the two the rating filter pushes, in either branch. -/
theorem queryParams_length :
    ∀ (userId sportId : ℕ) (lon lat radiusMetres userRating : ℚ)
      (minRating maxRating : Matchmaking.JsOpt ℚ) (maxRatingDiff : ℚ),
      (Matchmaking.queryParams userId sportId lon lat radiusMetres userRating
        minRating maxRating maxRatingDiff).length = 7 := by
  intro userId sportId lon lat radiusMetres userRating minRating maxRating maxRatingDiff
  unfold Matchmaking.queryParams Matchmaking.baseParams Matchmaking.ratingFilterParams
  split_ifs <;> rfl

/-- Executing the built candidate statement always raises: seven bound
values against a highest placeholder of `$6` (and the spliced
JavaScript text would already fail to parse). -/
theorem runCandidatesQuery_always_errors :
    ∀ (userId sportId : ℕ) (lon lat radiusMetres userRating : ℚ)
      (minRating maxRating : Matchmaking.JsOpt ℚ) (maxRatingDiff : ℚ),
      Matchmaking.runCandidatesQuery (Matchmaking.queryParams userId sportId lon lat
        radiusMetres userRating minRating maxRating maxRatingDiff) = .error () := by
  intro userId sportId lon lat radiusMetres userRating minRating maxRating maxRatingDiff
  unfold Matchmaking.runCandidatesQuery
  rw [if_neg]
  rw [queryParams_length]
  decide

/-- Every execution of `findMatchCandidates` returns the empty list:
either the requester has no primary location, or the built statement
errors and the `catch` returns `[]`. -/
theorem findMatchCandidatesExec_eq_nil :
    ∀ (db : Matchmaking.Database) (userId sportId : ℕ) (userRating maxDistanceKm : ℚ)
      (minRating maxRating : Matchmaking.JsOpt ℚ) (maxRatingDiff : ℚ),
      Matchmaking.findMatchCandidatesExec db userId sportId userRating maxDistanceKm
        minRating maxRating maxRatingDiff = [] := by
  intro db userId sportId userRating maxDistanceKm minRating maxRating maxRatingDiff
  unfold Matchmaking.findMatchCandidatesExec
  cases hloc : Matchmaking.primaryLocation db userId with
  | none => rfl
  | some userLoc => simp [runCandidatesQuery_always_errors]

/-- C1: the list `findMatchCandidates` actually returns never contains
the requester's identity, has at most 10 entries, and is non-decreasing
in (closeness tier, distance) — vacuously, because the built statement
is invalid SQL, so every execution returns the empty list via the
`catch` (the `ORDER BY` the text asks for would in any case compare
ratings against `$4`, the requester's latitude). -/
theorem findMatchCandidatesExec_no_self_capped_sorted :
    ∀ (db : Matchmaking.Database) (userId sportId : ℕ) (userRating maxDistanceKm : ℚ)
      (minRating maxRating : Matchmaking.JsOpt ℚ) (maxRatingDiff : ℚ),
      (∀ c ∈ Matchmaking.findMatchCandidatesExec db userId sportId userRating maxDistanceKm
          minRating maxRating maxRatingDiff, c.userId ≠ userId) ∧
      (Matchmaking.findMatchCandidatesExec db userId sportId userRating maxDistanceKm
          minRating maxRating maxRatingDiff).length ≤ 10 ∧
      (Matchmaking.findMatchCandidatesExec db userId sportId userRating maxDistanceKm
          minRating maxRating maxRatingDiff).Pairwise (fun c d =>
        Matchmaking.tier userRating c.rating < Matchmaking.tier userRating d.rating ∨
          (Matchmaking.tier userRating c.rating = Matchmaking.tier userRating d.rating ∧
            c.distance ≤ d.distance)) := by
  intro db userId sportId userRating maxDistanceKm minRating maxRating maxRatingDiff
  rw [findMatchCandidatesExec_eq_nil db userId sportId userRating maxDistanceKm minRating
    maxRating maxRatingDiff]
  simp

/-- C8 at the failing input: the in-band candidate 2 passes every
condition the claim describes (it is the one row the spec-described
filter with band [1550, 1650] keeps), yet the function returns `[]` —
the statement errors before filtering.  The remaining conjuncts pin the
divergence down in the built statement itself: seven bound values for a
highest placeholder of `$6`, with `$5` bound to `maxDistanceKm * 1000`
(10000) and `$6` to `minRating` (1550), so even the written filter is
`pp.rating BETWEEN 10000 AND 1550`, and an omitted band (`undefined`)
takes the BETWEEN branch with NULL bounds instead of the
max-difference-200 branch. -/
theorem execQuery_drops_in_band_candidate :
    Matchmaking.findMatchCandidatesExec c8db 1 7 1500 10 (.val 1550) (.val 1650) 200 = [] ∧
    c8row ∈ Matchmaking.candidateRows c8db c8dist 1 7 1500 10 (some 1550) (some 1650) 200
      (0, 0) ∧
    (1550 : ℚ) ≤ c8row.pp.rating ∧ c8row.pp.rating ≤ 1650 ∧
    (Matchmaking.queryParams 1 7 0 0 10000 1500 (.val 1550) (.val 1650) 200).length = 7 ∧
    Matchmaking.statementPlaceholderMax = 6 ∧
    (Matchmaking.queryParams 1 7 0 0 10000 1500 (.val 1550) (.val 1650) 200).get? 4 =
      some (some 10000) ∧
    (Matchmaking.queryParams 1 7 0 0 10000 1500 (.val 1550) (.val 1650) 200).get? 5 =
      some (some 1550) ∧
    Matchmaking.ratingFilterParams 1500 .undef .undef 200 = [none, none] := by
  have h : Matchmaking.candidateRows c8db c8dist 1 7 1500 10 (some 1550) (some 1650) 200
      (0, 0) = [c8row] := by
    norm_num [Matchmaking.candidateRows, Matchmaking.joinedRows, Matchmaking.whereBase,
      Matchmaking.ratingPred, Matchmaking.hasActiveRequest, c8db, c8dist, c8row]
  refine ⟨rfl, ?_, by norm_num [c8row], by norm_num [c8row], rfl, rfl, rfl, rfl, rfl⟩
  rw [h]
  exact List.mem_singleton.mpr rfl


/-- C9: `findMatchCandidates` is a total function into candidate lists
(no error can reach the caller), returning the empty list both when the
requester has no primary location on file and when no candidate
survives the filters. -/
theorem findMatchCandidates_empty_not_error :
    ∀ (db : Matchmaking.Database) (dist : ℚ × ℚ → ℚ × ℚ → ℚ) (userId sportId : ℕ)
      (userRating maxDistanceKm : ℚ) (low high : Option ℚ) (maxRatingDiff : ℚ),
      (Matchmaking.primaryLocation db userId = none →
        Matchmaking.findMatchCandidates db dist userId sportId userRating maxDistanceKm
          low high maxRatingDiff = []) ∧
      (∀ userLoc : ℚ × ℚ, Matchmaking.primaryLocation db userId = some userLoc →
        Matchmaking.candidateRows db dist userId sportId userRating maxDistanceKm low high
          maxRatingDiff userLoc = [] →
        Matchmaking.findMatchCandidates db dist userId sportId userRating maxDistanceKm
          low high maxRatingDiff = []) := by
  intro db dist userId sportId userRating maxDistanceKm low high maxRatingDiff
  constructor
  · intro h
    unfold Matchmaking.findMatchCandidates
    rw [h]
  · intro userLoc hloc hempty
    unfold Matchmaking.findMatchCandidates Matchmaking.queryRows
    simp only [hloc]
    rw [hempty]
    simp
